import Mathlib

/-!
Shallow embedding of the broadcast-eligibility logic of the mobilesender
front end.

The embedded functions are:
* `getEligibleContacts`, `canStartBroadcast`, `getMessageLimit` and
  `handleTemplateSelection` from `src/frontend/src/screens/BroadcastScreen.tsx`;
* `getSubscriptionInfo` from `src/frontend/app/screens/DashboardScreen.tsx`.

Modelling conventions for the JavaScript/TypeScript source:
* an optional string field (`phone?`, `telegram_username?`) is `Option String`;
  its JS truthiness (`contact.phone`) is `strTruthy`: false for `undefined`
  and for the empty string;
* a numeric field is `Int`; the JS truthiness of a number is `≠ 0`
  (`user?.messages_sent_this_month && ...` in the source is falsy for an
  absent user and for the value 0);
* `user` may be `null`, hence `Option User`; the optional chaining
  `user?.is_unlimited` is falsy when `user` is null, so
  `!user?.is_unlimited` is true for a null user;
* component state (`selectedAccount`, `selectedTemplate` as strings with
  `''` meaning no selection, `templateMode`, `selectedTemplates`) is
  gathered in `BroadcastState`;
* the Russian UI reason strings are represented by the inductive `Reason`,
  one constructor per distinct string; the quota-exceeded string
  interpolates `limit - user.messages_sent_this_month`, carried as the
  payload of `Reason.wouldExceedLimit`.
-/

namespace MobileSender

/-- `User` from the auth context (`src/unnamed/part_000`): fields
`subscription_plan`, `is_unlimited`, `messages_sent_this_month` are the ones
the broadcast logic reads; `messages_sent_this_month: number` is not optional
in the source interface. -/
structure User where
  id : String
  email : String
  username : String
  role : String
  subscription_plan : String
  is_unlimited : Bool
  messages_sent_this_month : Int
deriving Repr, DecidableEq

/-- `MessengerAccount` from `BroadcastScreen.tsx`. -/
structure MessengerAccount where
  id : String
  messenger_type : String
  account_name : String
  is_active : Bool
deriving Repr, DecidableEq

/-- `Contact` from `BroadcastScreen.tsx`; `phone` and `telegram_username`
are optional in the source. -/
structure Contact where
  id : String
  name : String
  phone : Option String
  telegram_username : Option String
deriving Repr, DecidableEq

/-- `templateMode` state: `'single' | 'random' | 'alternate'`. -/
inductive TemplateMode where
  | single
  | random
  | alternate
deriving Repr, DecidableEq

/-- JS truthiness of an optional string: `undefined` and `''` are falsy. -/
def strTruthy : Option String → Bool
  | Option.none => false
  | Option.some s => s != ""

/-- The component state read by `getEligibleContacts` and
`canStartBroadcast`: the fetched lists and the user's selections.
`selectedAccount = ""` and `selectedTemplate = ""` mean no selection, as in
the source where the state is initialised to `''`. -/
structure BroadcastState where
  user : Option User
  accounts : List MessengerAccount
  contacts : List Contact
  selectedAccount : String
  selectedTemplate : String
  templateMode : TemplateMode
  selectedTemplates : List String
deriving Repr, DecidableEq

/-- `getEligibleContacts` (BroadcastScreen.tsx lines 85-98):
return `[]` if no account is selected; find the selected account; filter
contacts by truthiness of `telegram_username` for a telegram account, of
`phone` for a whatsapp account; `[]` for any other messenger type or when
the id is not found. -/
def getEligibleContacts (st : BroadcastState) : List Contact :=
  if st.selectedAccount = "" then []
  else
    match st.accounts.find? (fun acc => acc.id == st.selectedAccount) with
    | Option.none => []
    | Option.some account =>
      if account.messenger_type = "telegram" then
        st.contacts.filter (fun c => strTruthy c.telegram_username)
      else if account.messenger_type = "whatsapp" then
        st.contacts.filter (fun c => strTruthy c.phone)
      else []

/-- The reason strings produced by `canStartBroadcast`, one constructor per
distinct string; `wouldExceedLimit a` stands for the string interpolating
the remaining headroom `a = limit - user.messages_sent_this_month`. -/
inductive Reason where
  | noReason
  | selectAccountAndContacts
  | selectTemplate
  | selectAtLeastOneTemplate
  | monthlyLimitReached
  | wouldExceedLimit (available : Int)
deriving Repr, DecidableEq

/-- The `{ canStart, reason }` object returned by `canStartBroadcast`. -/
structure CheckResult where
  canStart : Bool
  reason : Reason
deriving Repr, DecidableEq

/-- `getMessageLimit` (BroadcastScreen.tsx lines 134-144): 0 with no user,
otherwise the switch on `subscription_plan` with default 0. -/
def getMessageLimit (user : Option User) : Int :=
  match user with
  | Option.none => 0
  | Option.some u =>
    if u.subscription_plan = "free" then 10
    else if u.subscription_plan = "basic" then 1000
    else if u.subscription_plan = "professional" then 5000
    else if u.subscription_plan = "corporate" then 20000
    else 0

/-- `canStartBroadcast` (BroadcastScreen.tsx lines 100-132).

The quota block is guarded by `!user?.is_unlimited`, which is true when
`user` is null or `is_unlimited` is false; both quota conditions are guarded
by the truthiness of `user?.messages_sent_this_month`, i.e. they require the
user to be present AND the count to be nonzero.  The match on `st.user`
realises the optional chaining: for a null user the quota block is entered
but both truthiness guards are falsy, so the result is `canStart = true`. -/
def canStartBroadcast (st : BroadcastState) : CheckResult :=
  if st.selectedAccount = "" ∨ (getEligibleContacts st).length = 0 then
    ⟨false, Reason.selectAccountAndContacts⟩
  else if st.templateMode = TemplateMode.single ∧ st.selectedTemplate = "" then
    ⟨false, Reason.selectTemplate⟩
  else if (st.templateMode = TemplateMode.random ∨ st.templateMode = TemplateMode.alternate)
      ∧ st.selectedTemplates = [] then
    ⟨false, Reason.selectAtLeastOneTemplate⟩
  else
    match st.user with
    | Option.none => ⟨true, Reason.noReason⟩
    | Option.some u =>
      if u.is_unlimited then ⟨true, Reason.noReason⟩
      else if u.messages_sent_this_month ≠ 0
          ∧ u.messages_sent_this_month ≥ getMessageLimit (Option.some u) then
        ⟨false, Reason.monthlyLimitReached⟩
      else if u.messages_sent_this_month ≠ 0
          ∧ u.messages_sent_this_month + ((getEligibleContacts st).length : Int)
            > getMessageLimit (Option.some u) then
        ⟨false, Reason.wouldExceedLimit
          (getMessageLimit (Option.some u) - u.messages_sent_this_month)⟩
      else ⟨true, Reason.noReason⟩

/-- The `{ name, limit, color }` object returned by
`getSubscriptionInfo` in DashboardScreen.tsx. -/
structure SubscriptionInfo where
  name : String
  limit : Int
  color : String
deriving Repr, DecidableEq

/-- `getSubscriptionInfo` (DashboardScreen.tsx lines 86-105): unknown info
with limit 0 for a null user, limit `-1` for an unlimited user, otherwise a
switch on `subscription_plan` with default limit 0. -/
def getSubscriptionInfo (user : Option User) : SubscriptionInfo :=
  match user with
  | Option.none => ⟨"Неизвестно", 0, "#666"⟩
  | Option.some u =>
    if u.is_unlimited then ⟨"Безлимитный", -1, "#00FF88"⟩
    else if u.subscription_plan = "free" then ⟨"Бесплатный", 10, "#666"⟩
    else if u.subscription_plan = "basic" then ⟨"Базовый", 1000, "#007AFF"⟩
    else if u.subscription_plan = "professional" then
      ⟨"Профессиональный", 5000, "#FF9500"⟩
    else if u.subscription_plan = "corporate" then
      ⟨"Корпоративный", 20000, "#FF3B30"⟩
    else ⟨"Неизвестно", 0, "#666"⟩

/-- `handleTemplateSelection` (BroadcastScreen.tsx lines 177-183): toggle
membership of `templateId` in `selectedTemplates` — filter it out when
included, append it otherwise. -/
def handleTemplateSelection (selectedTemplates : List String)
    (templateId : String) : List String :=
  if templateId ∈ selectedTemplates then
    selectedTemplates.filter (fun id => id != templateId)
  else
    selectedTemplates ++ [templateId]

/-- The template requirement of `canStartBroadcast` for the current mode:
single mode requires a selected template, random/alternate modes require a
nonempty `selectedTemplates`. -/
def templateReqMet (st : BroadcastState) : Prop :=
  (st.templateMode = TemplateMode.single → st.selectedTemplate ≠ "") ∧
  ((st.templateMode = TemplateMode.random ∨ st.templateMode = TemplateMode.alternate)
    → st.selectedTemplates ≠ [])

instance (st : BroadcastState) : Decidable (templateReqMet st) := by
  unfold templateReqMet; infer_instance

/-! Concrete users, accounts, contacts and component states used to
exercise the embedded functions. -/

/-- A user on an unrecognized plan with nothing sent this month. -/
def uUnknown : User := ⟨"u1", "u1@x", "u1", "user", "enterprise", false, 0⟩

/-- A free-plan user with nothing sent this month. -/
def uFree0 : User := ⟨"u2", "u2@x", "u2", "user", "free", false, 0⟩

/-- A free-plan user with 8 messages sent this month. -/
def uFree8 : User := ⟨"u3", "u3@x", "u3", "user", "free", false, 8⟩

/-- A free-plan user who has reached the limit of 10. -/
def uFree10 : User := ⟨"u4", "u4@x", "u4", "user", "free", false, 10⟩

/-- A basic-plan user with nothing sent this month. -/
def uBasic0 : User := ⟨"u5", "u5@x", "u5", "user", "basic", false, 0⟩

/-- An unlimited user far past the free-plan limit. -/
def uUnl : User := ⟨"u6", "u6@x", "u6", "user", "free", true, 999999⟩

def tgAcc : MessengerAccount := ⟨"a1", "telegram", "TG", true⟩

def waAcc : MessengerAccount := ⟨"a2", "whatsapp", "WA", true⟩

def vbAcc : MessengerAccount := ⟨"a3", "viber", "VB", true⟩

/-- A contact with only a telegram username. -/
def tgContact : Contact := ⟨"c1", "Tg", Option.none, Option.some ("tguser")⟩

/-- A contact with only a phone number. -/
def waContact : Contact := ⟨"c2", "Wa", Option.some ("+70000000000"), Option.none⟩

/-- Unknown plan, 0 sent, one eligible contact, template chosen. -/
def stC1 : BroadcastState :=
  ⟨Option.some uUnknown, [tgAcc], [tgContact], "a1", "t1", TemplateMode.single, []⟩

/-- Free plan with the quota already fully used (10 of 10). -/
def stQuotaFull : BroadcastState :=
  ⟨Option.some uFree10, [tgAcc], [tgContact], "a1", "t1", TemplateMode.single, []⟩

/-- Free plan, 0 sent, 11 eligible contacts (would exceed the limit of 10). -/
def stZeroSkip : BroadcastState :=
  ⟨Option.some uFree0, [tgAcc], List.replicate 11 tgContact, "a1", "t1",
    TemplateMode.single, []⟩

/-- Free plan, 8 sent, 3 eligible contacts. -/
def stFree83 : BroadcastState :=
  ⟨Option.some uFree8, [tgAcc], List.replicate 3 tgContact, "a1", "t1",
    TemplateMode.single, []⟩

/-- Basic plan, 0 sent, 500 eligible contacts. -/
def stBasic500 : BroadcastState :=
  ⟨Option.some uBasic0, [tgAcc], List.replicate 500 tgContact, "a1", "t1",
    TemplateMode.single, []⟩

/-- Mixed contact list with the telegram account selected. -/
def stMixedTG : BroadcastState :=
  ⟨Option.none, [tgAcc, waAcc], [tgContact, waContact], "a1", "",
    TemplateMode.single, []⟩

/-- Mixed contact list with the whatsapp account selected. -/
def stMixedWA : BroadcastState :=
  ⟨Option.none, [tgAcc, waAcc], [tgContact, waContact], "a2", "",
    TemplateMode.single, []⟩

/-- No account selected. -/
def stNoSel : BroadcastState :=
  ⟨Option.none, [tgAcc], [tgContact], "", "", TemplateMode.single, []⟩

/-- An unlimited user with an eligible contact and a chosen template. -/
def stUnlimited : BroadcastState :=
  ⟨Option.some uUnl, [tgAcc], [tgContact], "a1", "t1", TemplateMode.single, []⟩

/-- Alternate mode with two selected templates but no eligible contact
(the only contact has no telegram username). -/
def stAlt2 : BroadcastState :=
  ⟨Option.none, [tgAcc], [waContact], "a1", "", TemplateMode.alternate,
    ["t1", "t2"]⟩

/-- Single mode with no template selected, everything else valid. -/
def stNoTemplate : BroadcastState :=
  ⟨Option.some uFree0, [tgAcc], [tgContact], "a1", "", TemplateMode.single, []⟩

/-- A selected account whose messenger type is neither telegram nor
whatsapp. -/
def stViber : BroadcastState :=
  ⟨Option.some uFree0, [vbAcc], [tgContact, waContact], "a3", "t1",
    TemplateMode.single, []⟩

/-! Helper lemmas shared by the claim theorems. -/

/-- Once the account/contact and template checks pass and the user is
present, `canStartBroadcast` reduces to the quota if-chain. -/
theorem canStartBroadcast_quota_case (st : BroadcastState) (u : User)
    (hu : st.user = Option.some u)
    (hnot1 : ¬(st.selectedAccount = "" ∨ (getEligibleContacts st).length = 0))
    (hnot2 : ¬(st.templateMode = TemplateMode.single ∧ st.selectedTemplate = ""))
    (hnot3 : ¬((st.templateMode = TemplateMode.random
      ∨ st.templateMode = TemplateMode.alternate) ∧ st.selectedTemplates = [])) :
    canStartBroadcast st =
      (if u.is_unlimited then ⟨true, Reason.noReason⟩
       else if u.messages_sent_this_month ≠ 0
           ∧ u.messages_sent_this_month ≥ getMessageLimit (Option.some u) then
         ⟨false, Reason.monthlyLimitReached⟩
       else if u.messages_sent_this_month ≠ 0
           ∧ u.messages_sent_this_month + ((getEligibleContacts st).length : Int)
             > getMessageLimit (Option.some u) then
         ⟨false, Reason.wouldExceedLimit
           (getMessageLimit (Option.some u) - u.messages_sent_this_month)⟩
       else ⟨true, Reason.noReason⟩) := by
  unfold canStartBroadcast
  rw [if_neg hnot1, if_neg hnot2, if_neg hnot3, hu]

/-- Toggling preserves distinctness of the selected-templates list. -/
theorem nodup_handleTemplateSelection (l : List String) (x : String)
    (h : l.Nodup) : (handleTemplateSelection l x).Nodup := by
  unfold handleTemplateSelection
  split
  · exact h.filter _
  · rename_i hx
    refine h.append (List.nodup_singleton x) ?_
    intro a ha hb
    rw [List.mem_singleton] at hb
    subst hb
    exact hx ha

/-- Any fold of toggles starting from a distinct list stays distinct. -/
theorem nodup_foldl_handleTemplateSelection (ids : List String) :
    ∀ l : List String, l.Nodup → (ids.foldl handleTemplateSelection l).Nodup := by
  induction ids with
  | nil => intro l h; exact h
  | cons x xs ih =>
    intro l h
    exact ih _ (nodup_handleTemplateSelection l x h)

/-! Claim theorems. -/

/-- Claim C3: for every contact list and selected account, a telegram
account yields exactly the contacts with a present, non-empty
`telegram_username`; a whatsapp account yields exactly those with a
present, non-empty `phone`; and with no account selected the result is
empty. -/
theorem getEligibleContacts_spec (st : BroadcastState) :
    (st.selectedAccount = "" → getEligibleContacts st = []) ∧
    (∀ acc : MessengerAccount,
      st.accounts.find? (fun a => a.id == st.selectedAccount) = Option.some acc →
      st.selectedAccount ≠ "" →
      (acc.messenger_type = "telegram" →
        getEligibleContacts st
          = st.contacts.filter (fun c => strTruthy c.telegram_username)) ∧
      (acc.messenger_type = "whatsapp" →
        getEligibleContacts st
          = st.contacts.filter (fun c => strTruthy c.phone))) := by
  constructor
  · intro h
    simp [getEligibleContacts, h]
  · intro acc hfind hne
    constructor
    · intro hty
      simp [getEligibleContacts, hne, hfind, hty]
    · intro hty
      simp [getEligibleContacts, hne, hfind, hty]

/-- Witness for C3 at concrete states: telegram filter, whatsapp filter,
and no selection. -/
theorem getEligibleContacts_spec_witness :
    getEligibleContacts stMixedTG
      = stMixedTG.contacts.filter (fun c => strTruthy c.telegram_username) ∧
    getEligibleContacts stMixedWA
      = stMixedWA.contacts.filter (fun c => strTruthy c.phone) ∧
    getEligibleContacts stNoSel = [] :=
  ⟨((getEligibleContacts_spec stMixedTG).2 tgAcc (by decide) (by decide)).1
      (by decide),
   ((getEligibleContacts_spec stMixedWA).2 waAcc (by decide) (by decide)).2
      (by decide),
   (getEligibleContacts_spec stNoSel).1 (by decide)⟩

/-- Claim C5: with no account selected or no eligible contact,
`canStartBroadcast` fails with the select-account-and-contacts reason,
before any template or quota consideration. -/
theorem canStartBroadcast_fail_fast (st : BroadcastState)
    (h : st.selectedAccount = "" ∨ (getEligibleContacts st).length = 0) :
    canStartBroadcast st = ⟨false, Reason.selectAccountAndContacts⟩ := by
  unfold canStartBroadcast
  rw [if_pos h]

/-- Witness for C5: alternate mode with two selected templates and zero
eligible contacts is still blocked by the account/contact check. -/
theorem canStartBroadcast_fail_fast_witness :
    canStartBroadcast stAlt2 = ⟨false, Reason.selectAccountAndContacts⟩ :=
  canStartBroadcast_fail_fast stAlt2 (Or.inr (by decide))

/-- Claim C6: single mode with no selected template, and random/alternate
mode with an empty template set, always yield `canStart = false`. -/
theorem canStartBroadcast_needs_template (st : BroadcastState)
    (h : (st.templateMode = TemplateMode.single ∧ st.selectedTemplate = "") ∨
      ((st.templateMode = TemplateMode.random
        ∨ st.templateMode = TemplateMode.alternate)
        ∧ st.selectedTemplates = [])) :
    (canStartBroadcast st).canStart = false := by
  unfold canStartBroadcast
  by_cases h1 : st.selectedAccount = "" ∨ (getEligibleContacts st).length = 0
  · rw [if_pos h1]
  · rw [if_neg h1]
    rcases h with ⟨hm, ht⟩ | ⟨hm, ht⟩
    · rw [if_pos ⟨hm, ht⟩]
    · have hns : ¬(st.templateMode = TemplateMode.single
          ∧ st.selectedTemplate = "") := by
        rcases hm with h' | h' <;> simp [h']
      rw [if_neg hns, if_pos ⟨hm, ht⟩]

/-- Witness for C6: single mode with no template in an otherwise valid
state. -/
theorem canStartBroadcast_needs_template_witness :
    (canStartBroadcast stNoTemplate).canStart = false :=
  canStartBroadcast_needs_template stNoTemplate (Or.inl (by decide))

/-- Claim C10: a selected account of any messenger type other than
telegram or whatsapp has no eligible contacts, so the broadcast cannot
start. -/
theorem unknown_messenger_blocks (st : BroadcastState) (acc : MessengerAccount)
    (hfind : st.accounts.find? (fun a => a.id == st.selectedAccount)
      = Option.some acc)
    (ht : acc.messenger_type ≠ "telegram")
    (hw : acc.messenger_type ≠ "whatsapp") :
    getEligibleContacts st = [] ∧ (canStartBroadcast st).canStart = false := by
  have hempty : getEligibleContacts st = [] := by
    by_cases hsel : st.selectedAccount = ""
    · simp [getEligibleContacts, hsel]
    · simp [getEligibleContacts, hsel, hfind, ht, hw]
  refine ⟨hempty, ?_⟩
  unfold canStartBroadcast
  rw [if_pos (Or.inr (by rw [hempty]; rfl))]

/-- Witness for C10: a selected viber account. -/
theorem unknown_messenger_blocks_witness :
    getEligibleContacts stViber = []
      ∧ (canStartBroadcast stViber).canStart = false :=
  unknown_messenger_blocks stViber vbAcc (by decide) (by decide) (by decide)

/-- Claim C1 counterexample: with an unrecognized plan (limit 0), zero
messages sent, an eligible contact and a chosen template, the claim's
hypotheses hold and `messages_sent_this_month ≥ limit`, yet
`canStartBroadcast` returns `canStart = true`: the truthiness guard on
`user?.messages_sent_this_month` skips both quota checks when the counter
is 0. -/
theorem quota_exhausted_zero_sent_counterexample :
    stC1.user = Option.some uUnknown ∧
    uUnknown.is_unlimited = false ∧
    stC1.selectedAccount ≠ "" ∧
    (getEligibleContacts stC1).length > 0 ∧
    templateReqMet stC1 ∧
    getMessageLimit stC1.user = 0 ∧
    uUnknown.messages_sent_this_month = 0 ∧
    uUnknown.messages_sent_this_month ≥ getMessageLimit stC1.user ∧
    canStartBroadcast stC1 = ⟨true, Reason.noReason⟩ := by decide

/-- Claim C1 (amended): for a non-unlimited user with an account selected,
eligible contacts present and the template requirement met, if
`messages_sent_this_month` is nonzero and at least the plan limit,
`canStartBroadcast` fails with the quota-exhausted reason. -/
theorem canStartBroadcast_quota_exhausted (st : BroadcastState) (u : User)
    (hu : st.user = Option.some u) (hunl : u.is_unlimited = false)
    (hacc : st.selectedAccount ≠ "")
    (hlen : (getEligibleContacts st).length ≠ 0)
    (htm : templateReqMet st)
    (hsent : u.messages_sent_this_month ≠ 0)
    (hlim : u.messages_sent_this_month ≥ getMessageLimit (Option.some u)) :
    canStartBroadcast st = ⟨false, Reason.monthlyLimitReached⟩ := by
  obtain ⟨ht1, ht2⟩ := htm
  rw [canStartBroadcast_quota_case st u hu
      (by push_neg; exact ⟨hacc, hlen⟩)
      (fun hc => ht1 hc.1 hc.2)
      (fun hc => ht2 hc.1 hc.2)]
  rw [if_neg (by simp [hunl]), if_pos ⟨hsent, hlim⟩]

/-- Witness for the amended C1: a free-plan user with the full quota of 10
already sent. -/
theorem canStartBroadcast_quota_exhausted_witness :
    canStartBroadcast stQuotaFull = ⟨false, Reason.monthlyLimitReached⟩ :=
  canStartBroadcast_quota_exhausted stQuotaFull uFree10 rfl rfl
    (by decide) (by decide) (by decide) (by decide) (by decide)

/-- Claim C2 counterexample: free plan (limit 10), zero sent, 11 eligible
contacts: the claim's hypotheses hold and `0 + 11 > 10`, yet
`canStartBroadcast` returns `canStart = true`, because the zero sent
counter is falsy and the pre-check is skipped. -/
theorem quota_precheck_zero_sent_counterexample :
    stZeroSkip.user = Option.some uFree0 ∧
    uFree0.is_unlimited = false ∧
    stZeroSkip.selectedAccount ≠ "" ∧
    (getEligibleContacts stZeroSkip).length > 0 ∧
    templateReqMet stZeroSkip ∧
    uFree0.messages_sent_this_month < getMessageLimit stZeroSkip.user ∧
    uFree0.messages_sent_this_month
        + ((getEligibleContacts stZeroSkip).length : Int)
      > getMessageLimit stZeroSkip.user ∧
    canStartBroadcast stZeroSkip = ⟨true, Reason.noReason⟩ := by decide

/-- Claim C2 (amended): under the claim's hypotheses
(non-unlimited user, account selected, eligible contacts present, template
requirement met, `messages_sent_this_month < limit`): when the sent counter
is nonzero and `sent + eligible > limit` the broadcast is blocked with a
reason citing the headroom `limit - sent`; when `sent + eligible ≤ limit`,
or when the sent counter is 0 (falsy, so the pre-check is skipped), the
broadcast is allowed. -/
theorem canStartBroadcast_quota_precheck (st : BroadcastState) (u : User)
    (hu : st.user = Option.some u) (hunl : u.is_unlimited = false)
    (hacc : st.selectedAccount ≠ "")
    (hlen : (getEligibleContacts st).length ≠ 0)
    (htm : templateReqMet st)
    (hlt : u.messages_sent_this_month < getMessageLimit (Option.some u)) :
    (u.messages_sent_this_month ≠ 0 →
      u.messages_sent_this_month + ((getEligibleContacts st).length : Int)
          > getMessageLimit (Option.some u) →
      canStartBroadcast st = ⟨false, Reason.wouldExceedLimit
        (getMessageLimit (Option.some u) - u.messages_sent_this_month)⟩) ∧
    (u.messages_sent_this_month + ((getEligibleContacts st).length : Int)
          ≤ getMessageLimit (Option.some u)
        ∨ u.messages_sent_this_month = 0 →
      canStartBroadcast st = ⟨true, Reason.noReason⟩) := by
  obtain ⟨ht1, ht2⟩ := htm
  have hq := canStartBroadcast_quota_case st u hu
    (by push_neg; exact ⟨hacc, hlen⟩)
    (fun hc => ht1 hc.1 hc.2)
    (fun hc => ht2 hc.1 hc.2)
  have hnot1 : ¬(u.messages_sent_this_month ≠ 0
      ∧ u.messages_sent_this_month ≥ getMessageLimit (Option.some u)) :=
    fun hc => absurd hlt (not_lt.mpr hc.2)
  constructor
  · intro hsent hexc
    rw [hq, if_neg (by simp [hunl]), if_neg hnot1, if_pos ⟨hsent, hexc⟩]
  · intro hor
    have hnot2 : ¬(u.messages_sent_this_month ≠ 0
        ∧ u.messages_sent_this_month + ((getEligibleContacts st).length : Int)
          > getMessageLimit (Option.some u)) := by
      rcases hor with hle | h0
      · exact fun hc => absurd hc.2 (not_lt.mpr hle)
      · exact fun hc => hc.1 h0
    rw [hq, if_neg (by simp [hunl]), if_neg hnot1, if_neg hnot2]

set_option maxRecDepth 8000 in
/-- Witness for the amended C2 at the spec's two concrete examples:
free plan with 8 sent and 3 eligible contacts is blocked citing headroom 2;
basic plan with 0 sent and 500 eligible contacts is allowed. -/
theorem canStartBroadcast_quota_precheck_witness :
    canStartBroadcast stFree83 = ⟨false, Reason.wouldExceedLimit 2⟩ ∧
    canStartBroadcast stBasic500 = ⟨true, Reason.noReason⟩ := by
  constructor
  · have h := (canStartBroadcast_quota_precheck stFree83 uFree8 rfl rfl
      (by decide) (by decide) (by decide) (by decide)).1 (by decide) (by decide)
    have h2 : getMessageLimit (Option.some uFree8)
        - uFree8.messages_sent_this_month = 2 := by decide
    rw [h2] at h
    exact h
  · exact (canStartBroadcast_quota_precheck stBasic500 uBasic0 rfl rfl
      (by decide) (by decide) (by decide) (by decide)).2 (Or.inr (by decide))

/-- Claim C4: an unlimited user is never blocked by quota: with an account
selected, eligible contacts present and the template requirement met,
`canStartBroadcast` succeeds regardless of plan or sent count. -/
theorem canStartBroadcast_unlimited (st : BroadcastState) (u : User)
    (hu : st.user = Option.some u) (hunl : u.is_unlimited = true)
    (hacc : st.selectedAccount ≠ "")
    (hlen : (getEligibleContacts st).length ≠ 0)
    (htm : templateReqMet st) :
    canStartBroadcast st = ⟨true, Reason.noReason⟩ := by
  obtain ⟨ht1, ht2⟩ := htm
  rw [canStartBroadcast_quota_case st u hu
      (by push_neg; exact ⟨hacc, hlen⟩)
      (fun hc => ht1 hc.1 hc.2)
      (fun hc => ht2 hc.1 hc.2)]
  rw [if_pos hunl]

/-- Witness for C4: an unlimited free-plan user with 999999 messages
already sent may still start. -/
theorem canStartBroadcast_unlimited_witness :
    canStartBroadcast stUnlimited = ⟨true, Reason.noReason⟩ :=
  canStartBroadcast_unlimited stUnlimited uUnl rfl rfl
    (by decide) (by decide) (by decide)

/-- Claim C7: `getMessageLimit` is exactly the fixed mapping free=10,
basic=1000, professional=5000, corporate=20000, 0 for any other plan, and
0 with no user. -/
theorem getMessageLimit_spec :
    getMessageLimit Option.none = 0 ∧
    ∀ u : User,
      (u.subscription_plan = "free" → getMessageLimit (Option.some u) = 10) ∧
      (u.subscription_plan = "basic" → getMessageLimit (Option.some u) = 1000) ∧
      (u.subscription_plan = "professional"
        → getMessageLimit (Option.some u) = 5000) ∧
      (u.subscription_plan = "corporate"
        → getMessageLimit (Option.some u) = 20000) ∧
      (u.subscription_plan ≠ "free" → u.subscription_plan ≠ "basic" →
        u.subscription_plan ≠ "professional" →
        u.subscription_plan ≠ "corporate" →
        getMessageLimit (Option.some u) = 0) := by
  refine ⟨rfl, fun u => ⟨?_, ?_, ?_, ?_, ?_⟩⟩
  · intro h
    simp [getMessageLimit, h]
  · intro h
    simp [getMessageLimit, h]
  · intro h
    simp [getMessageLimit, h]
  · intro h
    simp [getMessageLimit, h]
  · intro h1 h2 h3 h4
    simp [getMessageLimit, h1, h2, h3, h4]

/-- Witness for C7: the mapping evaluated on a free-plan user, a basic-plan
user and an unrecognized-plan user. -/
theorem getMessageLimit_spec_witness :
    getMessageLimit (Option.some uFree0) = 10 ∧
    getMessageLimit (Option.some uBasic0) = 1000 ∧
    getMessageLimit (Option.some uUnknown) = 0 :=
  ⟨(getMessageLimit_spec.2 uFree0).1 (by decide),
   (getMessageLimit_spec.2 uBasic0).2.1 (by decide),
   (getMessageLimit_spec.2 uUnknown).2.2.2.2
     (by decide) (by decide) (by decide) (by decide)⟩

/-- Claim C8: for every non-unlimited user, the limit field of
DashboardScreen's `getSubscriptionInfo` agrees with BroadcastScreen's
`getMessageLimit`, including the unknown-plan default 0. -/
theorem limit_tables_agree (u : User) (h : u.is_unlimited = false) :
    (getSubscriptionInfo (Option.some u)).limit
      = getMessageLimit (Option.some u) := by
  rcases u with ⟨uid, uem, uun, uro, uplan, uunl, usent⟩
  simp only at h
  subst h
  simp only [getSubscriptionInfo, getMessageLimit]
  split_ifs <;> simp_all

/-- Witness for C8: the two tables agree on a concrete non-unlimited
free-plan user. -/
theorem limit_tables_agree_witness :
    (getSubscriptionInfo (Option.some uFree0)).limit
      = getMessageLimit (Option.some uFree0) :=
  limit_tables_agree uFree0 (by decide)

/-- Claim C9: `selectedTemplates` never holds duplicates: any sequence of
`handleTemplateSelection` toggles starting from the empty list yields a
distinct list; toggling an id already present removes it, toggling an
absent id appends it once. -/
theorem handleTemplateSelection_invariant :
    (∀ ids : List String,
      (ids.foldl handleTemplateSelection []).Nodup) ∧
    (∀ (l : List String) (x : String), x ∈ l →
      handleTemplateSelection l x = l.filter (fun id => id != x)) ∧
    (∀ (l : List String) (x : String), x ∉ l →
      handleTemplateSelection l x = l ++ [x]) := by
  refine ⟨fun ids => nodup_foldl_handleTemplateSelection ids [] List.nodup_nil,
    fun l x hx => ?_, fun l x hx => ?_⟩
  · unfold handleTemplateSelection
    rw [if_pos hx]
  · unfold handleTemplateSelection
    rw [if_neg hx]

/-- Witness for C9: toggling a present id removes it, toggling an absent
id appends it. -/
theorem handleTemplateSelection_invariant_witness :
    handleTemplateSelection ["a", "b"] "a"
      = (["a", "b"] : List String).filter (fun id => id != "a") ∧
    handleTemplateSelection ["b"] "a" = ["b"] ++ ["a"] :=
  ⟨handleTemplateSelection_invariant.2.1 ["a", "b"] "a" (by decide),
   handleTemplateSelection_invariant.2.2 ["b"] "a" (by decide)⟩

end MobileSender
